import Mathlib

/-!
Shallow embedding of the MySQL database backend of Trac
(`trac/db/mysql_backend.py`): the schema model (tables, columns,
indices), the DDL compiler (`to_sql`, `_collist`,
`alter_column_types`), identifier quoting (`_quote`), the connection
lifecycle operations (`close`, `rollback`, `reset_tables`,
`drop_column`) and the argument construction of `backup`.
Pure parts of the Python code become Lean functions; interactions with
the database driver or the operating system are modelled by passing
the outcome of each external call as an explicit argument.
-/

namespace Trac

/-- An abstract schema column: name, abstract SQL type tag, the
`auto_increment` flag and the optional `key_size` (max indexed prefix
for text columns). Mirrors the attributes of `trac.db.schema.Column`
used by the MySQL backend. -/
structure Column where
  name : String
  type : String
  auto_increment : Bool
  key_size : Option Nat
  deriving Repr, DecidableEq

/-- An abstract index: ordered column names and the `unique` flag. -/
structure Index where
  columns : List String
  unique : Bool
  deriving Repr, DecidableEq

/-- An abstract table: name, ordered columns, primary-key column
names (`key`) and indices. -/
structure Table where
  name : String
  columns : List Column
  key : List String
  indices : List Index
  deriving Repr, DecidableEq

/-- Python `str.replace(old, new)` for a single-character pattern:
every occurrence of the character `old` is replaced by `new`. -/
def replaceChar (old : Char) (new : String) : List Char → String
  | [] => ""
  | ch :: rest =>
      (if ch = old then new else String.singleton ch) ++ replaceChar old new rest

/-- `_quote(identifier)` from `mysql_backend.py`: wrap in backticks,
doubling any embedded backtick. -/
def quoteIdent (identifier : String) : String :=
  "`" ++ replaceChar '`' "``" identifier.data ++ "`"

/-- The static abstract-to-MySQL type mapping `_type_map`
(`int64 -> bigint`, `text -> mediumtext`); `_type_map.get(t, t)`
returns unmapped types unchanged. -/
def typeMap (t : String) : String :=
  if t = "int64" then "bigint"
  else if t = "text" then "mediumtext"
  else t

/-- `MySQLConnector._collist(table, columns, max_bytes)`: the
Key-Length Limiter. Computes the per-column cap `limit_col` and the
shared budget `limit`, then renders each index column, suffixing
text columns with a prefix length. Mirrors the Python loop: the
column metadata is looked up by filtering `table.columns` on the
name and the suffix is added only when the filter yields exactly one
column whose lowered type is `text`. -/
def collist (table : Table) (columns : List String) (max_bytes : Nat) : String :=
  let limit_col := 767 / max_bytes
  let limit := min (3072 / (max_bytes * columns.length)) limit_col
  let cols := columns.map (fun c =>
    let name := quoteIdent c
    let table_col := table.columns.filter (fun x => x.name = c)
    match table_col with
    | [x] =>
        if x.type.toLower = "text" then
          match x.key_size with
          | some ks => name ++ "(" ++ toString (min ks limit_col) ++ ")"
          | none => name ++ "(" ++ toString limit ++ ")"
        else name
    | _ => name)
  String.intercalate "," cols

/-- The Key-Length Limiter as the specification describes it: look
the column up directly, suffix a text column having an explicit
`key_size` with `min(key_size, limit_col)`, a text column without one
with `limit`, and emit non-text columns unprefixed. Used to state the
refinement between the code and the specification. -/
def collistSpec (table : Table) (columns : List String) (max_bytes : Nat) : String :=
  let limit_col := 767 / max_bytes
  let limit := min (3072 / (max_bytes * columns.length)) limit_col
  String.intercalate "," (columns.map (fun c =>
    match table.columns.find? (fun x => x.name = c) with
    | some col =>
        if col.type.toLower = "text" then
          match col.key_size with
          | some ks => quoteIdent c ++ "(" ++ toString (min ks limit_col) ++ ")"
          | none => quoteIdent c ++ "(" ++ toString limit ++ ")"
        else quoteIdent c
    | none => quoteIdent c))

/-- One iteration of the column loop of `MySQLConnector.to_sql`:
compute the concrete type through `_type_map`, override it (and
rewrite the abstract column's `type` in place to `int`) when the
column is auto-increment, and render the column definition line
`    <quoted name> <ctype>`. Returns the rendered line together with
the (possibly mutated) column. -/
def compileColumn (column : Column) : String × Column :=
  let ctype := typeMap column.type
  let r :=
    if column.auto_increment then
      ("INT UNSIGNED NOT NULL AUTO_INCREMENT", { column with type := "int" })
    else (ctype, column)
  ("    " ++ quoteIdent column.name ++ " " ++ r.1, r.2)

/-- `MySQLConnector.to_sql(table, max_bytes)`: the DDL compiler.
The Python generator is materialised as the list of yielded
statements, and the in-place mutation of the table's columns is made
explicit by also returning the table as it stands after the run.
The column loop is a left fold accumulating the rendered column
definitions and the mutated columns; the `PRIMARY KEY` clause and
every index column list are built by `_collist` over the mutated
table, exactly as in the source (the loop has already mutated the
column objects when `_collist` runs). -/
def to_sql (table : Table) (max_bytes : Nat) : List String × Table :=
  let res := table.columns.foldl
    (fun (acc : List String × List Column) column =>
      let r := compileColumn column
      (acc.1 ++ [r.1], acc.2 ++ [r.2]))
    ([], [])
  let table2 : Table := { table with columns := res.2 }
  let coldefs :=
    if table.key.length > 0 then
      res.1 ++ ["    PRIMARY KEY (" ++ collist table2 table.key max_bytes ++ ")"]
    else res.1
  let createStmt := "CREATE TABLE " ++ quoteIdent table.name ++ " (\n"
      ++ String.intercalate ",\n" coldefs ++ "\n)"
  let idxStmts := table2.indices.map (fun index =>
    let uniq := if index.unique then "UNIQUE" else ""
    let idxname := table.name ++ "_" ++ String.intercalate "_" index.columns ++ "_idx"
    "CREATE " ++ uniq ++ " INDEX " ++ quoteIdent idxname ++ " ON "
      ++ quoteIdent table.name ++ " (" ++ collist table2 index.columns max_bytes ++ ")")
  (createStmt :: idxStmts, table2)

/-- The table as it stands after compilation, per the specification:
every auto-increment column's abstract type is rewritten to `int`,
all other columns are untouched. -/
def compiledTable (table : Table) : Table :=
  { table with
      columns := table.columns.map (fun c =>
        if c.auto_increment then { c with type := "int" } else c) }

/-- The rendered column-definition lines of a table's CREATE TABLE
statement. -/
def columnDefs (table : Table) : List String :=
  table.columns.map (fun c => (compileColumn c).1)

/-- The concrete SQL type each column receives in the CREATE TABLE
statement: the forced auto-increment type for auto-increment columns,
the `_type_map` image otherwise. -/
def compiledColumnTypes (table : Table) : List String :=
  table.columns.map (fun c =>
    if c.auto_increment then "INT UNSIGNED NOT NULL AUTO_INCREMENT"
    else typeMap c.type)

/-- The CREATE TABLE statement of a table as the specification
describes it: the column definitions, then a PRIMARY KEY clause
(built by the Key-Length Limiter over the compiled table) exactly
when the table declares at least one key column. -/
def createTableStmt (table : Table) (max_bytes : Nat) : String :=
  "CREATE TABLE " ++ quoteIdent table.name ++ " (\n"
    ++ String.intercalate ",\n"
        (columnDefs table ++
          (if table.key = [] then []
           else ["    PRIMARY KEY ("
                  ++ collist (compiledTable table) table.key max_bytes ++ ")"]))
    ++ "\n)"

/-- The CREATE INDEX statement for one index, as the specification
describes it: the UNIQUE keyword exactly when the index's flag is
set, the derived name `{table}_{columns joined by _}_idx`, and the
column list built by the Key-Length Limiter over the compiled
table. -/
def indexStmt (table : Table) (max_bytes : Nat) (index : Index) : String :=
  "CREATE " ++ (if index.unique then "UNIQUE" else "") ++ " INDEX "
    ++ quoteIdent (table.name ++ "_" ++ String.intercalate "_" index.columns ++ "_idx")
    ++ " ON " ++ quoteIdent table.name
    ++ " (" ++ collist (compiledTable table) index.columns max_bytes ++ ")"

/-- A concrete table used to exercise the compiler: an auto-increment
primary key, a text column without `key_size`, a text column with an
explicit `key_size`, and one index. -/
def ticketTable : Table :=
  { name := "ticket",
    columns := [{ name := "id", type := "int", auto_increment := true,
                  key_size := none },
                { name := "summary", type := "text", auto_increment := false,
                  key_size := none },
                { name := "descr", type := "text", auto_increment := false,
                  key_size := some 1000 }],
    key := ["id"],
    indices := [{ columns := ["summary"], unique := false }] }

/-- Python's `sorted(columns.items())` over a dict with unique keys:
sort the association list by column name. Each entry is
`(name, (from, to))`. -/
def sortByName (columns : List (String × String × String)) :
    List (String × String × String) :=
  columns.insertionSort (fun a b => a.1 ≤ b.1)

/-- The `alterations` list built by
`MySQLConnector.alter_column_types`: for each column, in name order,
whose `_type_map` image of the target type differs from that of the
source type, the pair of the column name and the mapped target
type. -/
def alterations (columns : List (String × String × String)) :
    List (String × String) :=
  (sortByName columns).filterMap (fun x =>
    let to2 := typeMap x.2.2
    if to2 ≠ typeMap x.2.1 then some (x.1, to2) else none)

/-- `MySQLConnector.alter_column_types(table, columns)`: at most one
ALTER TABLE statement combining one MODIFY clause per column whose
mapped target type differs from its mapped source type; no statement
when no column differs. The Python generator is materialised as the
list of yielded statements. -/
def alter_column_types (table : String)
    (columns : List (String × String × String)) : List String :=
  let alts := alterations columns
  if alts.isEmpty then []
  else ["ALTER TABLE " ++ table ++ " "
        ++ String.intercalate ", "
            (alts.map (fun a => "MODIFY " ++ a.1 ++ " " ++ a.2))]

/-- The outcome of one call into the pymysql driver: success, a
`pymysql.ProgrammingError`, or any other driver exception. Driver
behaviour is external, so each operation takes the outcome of the
driver calls it makes as explicit arguments. -/
inductive DriverOutcome
  | ok
  | progError
  | otherError
  deriving Repr, DecidableEq

/-- The connection-local state the backend tracks for lifecycle
purposes: the `_is_closed` flag of `MySQLConnection`. -/
structure MySQLConnection where
  is_closed : Bool
  deriving Repr, DecidableEq

/-- `MySQLConnection.close()`: a no-op when already marked closed;
otherwise call the driver's `close`, swallowing a
`ProgrammingError` (which would mean the connection is already
closed server-side), then mark the connection closed. Any other
driver exception propagates before the flag is set. -/
def MySQLConnection.close (closeOutcome : DriverOutcome)
    (self : MySQLConnection) : Except DriverOutcome MySQLConnection :=
  if self.is_closed then .ok self
  else
    match closeOutcome with
    | .ok => .ok { self with is_closed := true }
    | .progError => .ok { self with is_closed := true }
    | .otherError => .error .otherError

/-- `MySQLConnection.rollback()`: ping the server, then call the
driver's `rollback`; a `ProgrammingError` from the rollback (the
server session reports the transaction invalid) marks the
connection closed instead of raising. A failing ping or any other
rollback exception propagates. -/
def MySQLConnection.rollback (pingOutcome rollbackOutcome : DriverOutcome)
    (self : MySQLConnection) : Except DriverOutcome MySQLConnection :=
  match pingOutcome with
  | .ok =>
      match rollbackOutcome with
      | .ok => .ok self
      | .progError => .ok { self with is_closed := true }
      | .otherError => .error .otherError
  | e => .error e

/-- The statement `reset_tables` executes for one table: TRUNCATE
TABLE when the table has an auto-increment column (the counter must
be reset), plain DELETE FROM otherwise. -/
def resetStmt (t : String × Bool) : String :=
  if t.2 then "TRUNCATE TABLE " ++ quoteIdent t.1
  else "DELETE FROM " ++ quoteIdent t.1

/-- `MySQLConnection.reset_tables()`: `schema` is the connection's
bound schema name and `tables` the introspection result — each table
name of the schema paired with whether it has an auto-increment
column. Returns the SQL statements executed and the table names
returned; a falsy (empty) schema name returns immediately with no
work. The cursor loop is a left fold. -/
def reset_tables (schema : String) (tables : List (String × Bool)) :
    List String × List String :=
  if schema = "" then ([], [])
  else
    tables.foldl
      (fun acc t => (acc.1 ++ [resetStmt t], acc.2 ++ [t.1]))
      ([], [])

/-- Backtick doubling as the specification describes `quote`: every
embedded backtick becomes two, every other character is kept. -/
def doubleTicks : List Char → List Char
  | [] => []
  | c :: rest =>
      if c = '`' then '`' :: '`' :: doubleTicks rest else c :: doubleTicks rest

/-- The connection properties `backup` reads from the parsed
database URI: the database path, optional host, port, user and
password, and the ordered connection-parameter mapping (a Python
dict preserving insertion order, with unique names). -/
structure DbProp where
  path : String
  host : Option String
  port : Option Nat
  user : Option String
  password : Option String
  params : List (String × String)
  deriving Repr, DecidableEq

/-- Modelled from the spec: `as_int` lives in `trac.util`, outside
the excerpt. It parses an integer, returning the default on
failure; only its zero/nonzero distinction is used by `backup`. -/
def as_int (value : String) (default : Int) : Int :=
  (value.toInt?).getD default

/-- Python `list.insert(1, x)`: place `x` at index 1. -/
def insertAt1 (args : List String) (x : String) : List String :=
  match args with
  | [] => [x]
  | a :: rest => a :: x :: rest

/-- `[flag, value]` when the optional connection property is
present, nothing otherwise. -/
def optArgs (flag : String) (v : Option String) : List String :=
  match v with
  | some s => [flag, s]
  | none => []

/-- One iteration of the parameter loop of `MySQLConnector.backup`:
`compress` and `named_pipe` append their flag when the value parses
non-zero, `read_default_file` is inserted at position 1 (it must be
first among the flags), `unix_socket` appends the protocol and
socket flags, and every other name (including the recognised
`init_command` and `read_default_group`) appends nothing. -/
def backupParamStep (args : List String) (nv : String × String) : List String :=
  if nv.1 = "compress" ∧ as_int nv.2 0 ≠ 0 then args ++ ["--compress"]
  else if nv.1 = "named_pipe" ∧ as_int nv.2 0 ≠ 0 then args ++ ["--protocol=pipe"]
  else if nv.1 = "read_default_file" then
    insertAt1 args ("--defaults-file=" ++ nv.2)
  else if nv.1 = "unix_socket" then
    args ++ ["--protocol=socket", "--socket=" ++ nv.2]
  else args

/-- The fixed argument prefix of `MySQLConnector.backup`: the dump
tool path, `--no-defaults`, then the optional host, port and user
flags. -/
def backupBaseArgs (mysqldump_path : String) (db : DbProp) : List String :=
  [mysqldump_path, "--no-defaults"] ++ optArgs "-h" db.host
    ++ optArgs "-P" (db.port.map toString) ++ optArgs "-u" db.user

/-- The full argument list `MySQLConnector.backup` hands to the
external dump tool: the fixed prefix, the parameter-derived flags,
then `-r dest_file db_name`. The password is never consulted. -/
def backupArgs (mysqldump_path : String) (db : DbProp)
    (dest_file db_name : String) : List String :=
  db.params.foldl backupParamStep (backupBaseArgs mysqldump_path db)
    ++ ["-r", dest_file, db_name]

/-- The process environment `backup` launches the tool with: a copy
of the current environment, with `MYSQL_PWD` carrying the password
when one is configured. -/
def backupEnv (base_env : List (String × String)) (db : DbProp) :
    List (String × String) :=
  match db.password with
  | some pw => base_env ++ [("MYSQL_PWD", pw)]
  | none => base_env

/-- The error discipline of `MySQLConnector.backup` once the
argument list is built: `launch` is `none` when the process cannot
be started (`OSError` from `Popen`) and otherwise holds the exit
status; `dest_exists` says whether the destination file exists
afterwards. A launch failure, a non-zero exit and a missing
destination file each raise `TracError`; otherwise the destination
path is returned. -/
def backupRun (launch : Option Int) (dest_exists : Bool)
    (dest_file : String) : Except String String :=
  match launch with
  | none => .error "Unable to run mysqldump"
  | some returncode =>
      if returncode ≠ 0 then .error "mysqldump failed"
      else if !dest_exists then .error "No destination file created"
      else .ok dest_file

/-- A concrete connection-property record exercising `backup`. -/
def dbPropSample : DbProp :=
  { path := "/tracdb",
    host := some "localhost",
    port := some 3306,
    user := some "tracuser",
    password := some "secret",
    params := [("compress", "1"), ("read_default_file", "/etc/my.cnf")] }

/-- One SHOW INDEX row folded into the `keys` dict of
`drop_column`: `keys.setdefault(row.Key_name, []).append(row.Column_name)`
— keys appear in order of first appearance, columns in row order. -/
def addIndexRow (acc : List (String × List String)) (row : String × String) :
    List (String × List String) :=
  if (acc.map Prod.fst).contains row.1 then
    acc.map (fun kv => if kv.1 = row.1 then (kv.1, kv.2 ++ [row.2]) else kv)
  else acc ++ [(row.1, [row.2])]

/-- The `keys` grouping of `MySQLConnection.drop_column`. -/
def groupIndexRows (rows : List (String × String)) : List (String × List String) :=
  rows.foldl addIndexRow []

/-- `MySQLConnection.drop_column(table, column)`: `current_cols` is
the introspected column-name list of the table and `index_rows` the
SHOW INDEX rows as (key name, column name) pairs. Returns the SQL
statements executed: nothing at all when the column is absent;
otherwise one drop per composite index involving the column (the
primary key via DROP PRIMARY KEY), then the DROP COLUMN itself. -/
def drop_column (current_cols : List String)
    (index_rows : List (String × String)) (table column : String) :
    List String :=
  if column ∈ current_cols then
    (groupIndexRows index_rows).filterMap (fun kv =>
        if kv.2.length > 1 ∧ column ∈ kv.2 then
          some (if kv.1 = "PRIMARY" then
                  "ALTER TABLE " ++ quoteIdent table ++ " DROP PRIMARY KEY"
                else
                  "ALTER TABLE " ++ quoteIdent table ++ " DROP KEY "
                    ++ quoteIdent kv.1)
        else none)
      ++ ["ALTER TABLE " ++ quoteIdent table ++ " DROP COLUMN "
            ++ quoteIdent column ++ " "]
  else []

/-- Executing a statement list against an abstract database state:
statements are applied in order through the given interpreter. -/
def applyStmts {σ : Type} (exec : σ → String → σ) (s : σ)
    (stmts : List String) : σ :=
  stmts.foldl exec s

/-- A concrete table that carries two auto-increment columns. -/
def twoAutoIncTable : Table :=
  { name := "t",
    columns := [{ name := "a", type := "int", auto_increment := true, key_size := none },
                { name := "b", type := "int", auto_increment := true, key_size := none }],
    key := [],
    indices := [] }

end Trac

namespace Trac

theorem filter_name_eq_find (cols : List Column) (c : String)
    (h : (cols.map Column.name).Nodup) :
    cols.filter (fun x => x.name = c) =
      (cols.find? (fun x => x.name = c)).toList := by
  induction cols with
  | nil => rfl
  | cons x xs ih =>
      simp only [List.map_cons, List.nodup_cons] at h
      by_cases hx : x.name = c
      · have hfilter : xs.filter (fun x => x.name = c) = [] := by
          apply List.filter_eq_nil_iff.mpr
          intro a ha
          simp only [decide_eq_true_eq]
          intro hac
          exact h.1 (by rw [hx, ← hac]; exact List.mem_map_of_mem Column.name ha)
        simp [List.filter_cons, List.find?_cons, hx, hfilter]
      · simp only [List.filter_cons, List.find?_cons, hx]
        simpa [hx] using ih h.2

/-- The code's Key-Length Limiter agrees with the specification's
description when the table's column names are unique. -/
theorem collist_eq_collistSpec (table : Table) (columns : List String)
    (max_bytes : Nat) (h : (table.columns.map Column.name).Nodup) :
    collist table columns max_bytes = collistSpec table columns max_bytes := by
  unfold collist collistSpec
  dsimp only
  congr 1
  apply List.map_congr_left
  intro c _
  rw [filter_name_eq_find table.columns c h]
  cases table.columns.find? (fun x => x.name = c) <;> simp [Option.toList]

/-- C1: For every table with uniquely-named columns, every non-empty
list of index column names drawn from that table, and every
`max_bytes >= 1`, `_collist` computes `limit_col = 767 // max_bytes`
and `limit = min(3072 // (max_bytes * num_columns), limit_col)` and
returns the comma-joined backtick-quoted column names, suffixing a
text column having an explicit `key_size` with
`min(key_size, limit_col)`, a text column without one with `limit`,
and emitting non-text columns unsuffixed (as `collistSpec` states it
verbatim); the divisor `max_bytes * num_columns` is positive, so the
divisions are defined and the function never fails. -/
theorem collist_correct (table : Table) (columns : List String) (max_bytes : Nat)
    (hnodup : (table.columns.map Column.name).Nodup)
    (_hmem : ∀ c ∈ columns, c ∈ table.columns.map Column.name)
    (hne : columns ≠ []) (hmb : 1 ≤ max_bytes) :
    collist table columns max_bytes = collistSpec table columns max_bytes ∧
    0 < max_bytes * columns.length :=
  ⟨collist_eq_collistSpec table columns max_bytes hnodup,
   Nat.mul_pos hmb (List.length_pos.mpr hne)⟩

/-- Witness for C1 on a concrete two-column text index. -/
theorem collist_correct_witness :
    ((ticketTable.columns.map Column.name).Nodup) ∧
    (∀ c ∈ ["summary", "descr"], c ∈ ticketTable.columns.map Column.name) ∧
    (["summary", "descr"] : List String) ≠ [] ∧ 1 ≤ 4 ∧
    (collist ticketTable ["summary", "descr"] 4
       = collistSpec ticketTable ["summary", "descr"] 4 ∧
     0 < 4 * (["summary", "descr"] : List String).length) :=
  ⟨by decide, by decide, by decide, by decide,
   collist_correct ticketTable ["summary", "descr"] 4
     (by decide) (by decide) (by decide) (by decide)⟩

theorem foldl_compile_append (cols : List Column) (a : List String) (b : List Column) :
    cols.foldl
      (fun (acc : List String × List Column) column =>
        let r := compileColumn column
        (acc.1 ++ [r.1], acc.2 ++ [r.2])) (a, b)
      = (a ++ cols.map (fun c => (compileColumn c).1),
         b ++ cols.map (fun c => (compileColumn c).2)) := by
  induction cols generalizing a b with
  | nil => simp
  | cons c cs ih => simp [List.foldl_cons, ih]

theorem compileColumn_snd (c : Column) :
    (compileColumn c).2 = if c.auto_increment then { c with type := "int" } else c := by
  unfold compileColumn
  by_cases h : c.auto_increment <;> simp [h]

theorem compileColumn_fst (c : Column) :
    (compileColumn c).1 = "    " ++ quoteIdent c.name ++ " "
      ++ (if c.auto_increment then "INT UNSIGNED NOT NULL AUTO_INCREMENT"
          else typeMap c.type) := by
  unfold compileColumn
  by_cases h : c.auto_increment <;> simp [h]

/-- `to_sql` in closed form: the CREATE TABLE statement, then one
CREATE INDEX statement per declared index, and the compiled table. -/
theorem to_sql_eq (table : Table) (mb : Nat) :
    to_sql table mb
      = (createTableStmt table mb :: table.indices.map (indexStmt table mb),
         compiledTable table) := by
  unfold to_sql createTableStmt indexStmt compiledTable columnDefs
  rw [foldl_compile_append]
  simp only [List.nil_append, compileColumn_snd]
  cases hk : table.key with
  | nil => simp
  | cons k ks => simp

/-- C2: For every table, `to_sql(table, max_bytes)` yields exactly
one CREATE TABLE statement first, then exactly one CREATE INDEX
statement per declared index in declared order; each index statement
carries the UNIQUE keyword iff the index's flag is set, is named
`{table}_{columns joined by _}_idx`, and builds its column list via
the Key-Length Limiter; the CREATE TABLE carries a PRIMARY KEY
clause (also via the Key-Length Limiter) iff the table declares at
least one key column — all as `createTableStmt` and `indexStmt`
spell out. -/
theorem to_sql_statement_sequence (table : Table) (max_bytes : Nat) :
    (to_sql table max_bytes).1
        = createTableStmt table max_bytes
            :: table.indices.map (indexStmt table max_bytes) ∧
    (to_sql table max_bytes).1.length = 1 + table.indices.length := by
  rw [to_sql_eq]
  simp [Nat.add_comm]

theorem compiledTable_name (table : Table) :
    (compiledTable table).name = table.name := rfl

theorem compiledTable_key (table : Table) :
    (compiledTable table).key = table.key := rfl

theorem compiledTable_indices (table : Table) :
    (compiledTable table).indices = table.indices := rfl

/-- The compiled table is a fixed point of compilation. -/
theorem compiledTable_idem (table : Table) :
    compiledTable (compiledTable table) = compiledTable table := by
  unfold compiledTable
  simp only [List.map_map]
  congr 1
  apply List.map_congr_left
  intro c _
  by_cases h : c.auto_increment <;> simp [h]

theorem columnDefs_compiledTable (table : Table) :
    columnDefs (compiledTable table) = columnDefs table := by
  unfold columnDefs compiledTable
  simp only [List.map_map]
  apply List.map_congr_left
  intro c _
  by_cases h : c.auto_increment <;> simp [h, compileColumn_fst]

theorem createTableStmt_compiledTable (table : Table) (mb : Nat) :
    createTableStmt (compiledTable table) mb = createTableStmt table mb := by
  unfold createTableStmt
  rw [columnDefs_compiledTable, compiledTable_idem, compiledTable_name,
      compiledTable_key]

theorem indexStmt_compiledTable (table : Table) (mb : Nat) :
    indexStmt (compiledTable table) mb = indexStmt table mb := by
  funext index
  unfold indexStmt
  rw [compiledTable_idem, compiledTable_name]

theorem zipWith_map_same {α β γ δ : Type} (f : α → β) (g : α → γ) (h : β → γ → δ)
    (l : List α) :
    List.zipWith h (l.map f) (l.map g) = l.map (fun x => h (f x) (g x)) := by
  induction l with
  | nil => rfl
  | cons a t ih => simp [ih]

/-- C3 (amended): For every table with exactly one auto-increment
column — one whose non-auto-increment columns do not map to the
forced auto-increment type string — the CREATE TABLE statement
contains exactly one auto-increment column definition (the concrete
type `INT UNSIGNED NOT NULL AUTO_INCREMENT`); after `to_sql` runs,
every auto-increment column's abstract type has been rewritten in
place to `int`, all other columns keep their type unchanged, and
every column definition is rendered from the static type map
(`int64 -> bigint`, `text -> mediumtext`, others pass through). With
several auto-increment columns the statement contains one such
definition per flagged column, not exactly one. -/
theorem to_sql_auto_increment_normalized (table : Table) (max_bytes : Nat)
    (h1 : table.columns.countP (fun c => c.auto_increment) = 1)
    (h2 : ∀ c ∈ table.columns, c.auto_increment = false →
            typeMap c.type ≠ "INT UNSIGNED NOT NULL AUTO_INCREMENT") :
    (compiledColumnTypes table).countP
        (fun t => t = "INT UNSIGNED NOT NULL AUTO_INCREMENT") = 1 ∧
    columnDefs table
      = List.zipWith (fun n t => "    " ++ quoteIdent n ++ " " ++ t)
          (table.columns.map Column.name) (compiledColumnTypes table) ∧
    (to_sql table max_bytes).1.head? = some (createTableStmt table max_bytes) ∧
    (to_sql table max_bytes).2.columns
      = table.columns.map (fun c =>
          if c.auto_increment then { c with type := "int" } else c) := by
  refine ⟨?_, ?_, ?_, ?_⟩
  · unfold compiledColumnTypes
    rw [List.countP_map, ← h1]
    apply List.countP_congr
    intro c hc
    by_cases ha : c.auto_increment
    · simp [ha, Function.comp]
    · simp only [Bool.not_eq_true] at ha
      simp [ha, Function.comp, h2 c hc ha]
  · unfold columnDefs compiledColumnTypes
    rw [zipWith_map_same]
    apply List.map_congr_left
    intro c _
    rw [compileColumn_fst]
  · rw [to_sql_eq]
    rfl
  · rw [to_sql_eq]
    rfl

/-- Witness for C3 (amended) on the concrete ticket table. -/
theorem to_sql_auto_increment_normalized_witness :
    (ticketTable.columns.countP (fun c => c.auto_increment) = 1) ∧
    (∀ c ∈ ticketTable.columns, c.auto_increment = false →
        typeMap c.type ≠ "INT UNSIGNED NOT NULL AUTO_INCREMENT") ∧
    ((compiledColumnTypes ticketTable).countP
        (fun t => t = "INT UNSIGNED NOT NULL AUTO_INCREMENT") = 1 ∧
     columnDefs ticketTable
       = List.zipWith (fun n t => "    " ++ quoteIdent n ++ " " ++ t)
           (ticketTable.columns.map Column.name) (compiledColumnTypes ticketTable) ∧
     (to_sql ticketTable 4).1.head? = some (createTableStmt ticketTable 4) ∧
     (to_sql ticketTable 4).2.columns
       = ticketTable.columns.map (fun c =>
           if c.auto_increment then { c with type := "int" } else c)) :=
  ⟨by decide, by decide,
   to_sql_auto_increment_normalized ticketTable 4 (by decide) (by decide)⟩

/-- C3 counterexample: a table holding two auto-increment columns is
a table "with an auto-increment column", yet its CREATE TABLE
statement contains two auto-increment column definitions, not
exactly one. -/
theorem to_sql_two_auto_increment_cex :
    0 < twoAutoIncTable.columns.countP (fun c => c.auto_increment) ∧
    ¬ (compiledColumnTypes twoAutoIncTable).countP
        (fun t => t = "INT UNSIGNED NOT NULL AUTO_INCREMENT") = 1 ∧
    (to_sql twoAutoIncTable 3).1
      = ["CREATE TABLE `t` (\n    `a` INT UNSIGNED NOT NULL AUTO_INCREMENT,\n    `b` INT UNSIGNED NOT NULL AUTO_INCREMENT\n)"] := by
  refine ⟨by decide, by decide, by decide⟩

/-- C4: Compiling the same table a second time — after the first run
has rewritten auto-increment column types in place — yields exactly
the same statement sequence and leaves the table unchanged; `to_sql`
is a pure function of the single table it is given, so its output
cannot depend on which other tables were compiled before. -/
theorem to_sql_idempotent (table : Table) (max_bytes : Nat) :
    to_sql (to_sql table max_bytes).2 max_bytes = to_sql table max_bytes := by
  rw [to_sql_eq table max_bytes]
  dsimp only
  rw [to_sql_eq (compiledTable table) max_bytes, createTableStmt_compiledTable,
      indexStmt_compiledTable, compiledTable_idem, compiledTable_indices]

/-- Witness for C4 on the concrete ticket table. -/
theorem to_sql_idempotent_witness :
    to_sql (to_sql ticketTable 4).2 4 = to_sql ticketTable 4 :=
  to_sql_idempotent ticketTable 4

theorem length_filterMap_guard {α β : Type} (p : α → Prop) [DecidablePred p]
    (g : α → β) (l : List α) :
    (l.filterMap (fun x => if p x then some (g x) else none)).length
      = l.countP (fun x => p x) := by
  induction l with
  | nil => rfl
  | cons a t ih =>
      by_cases h : p a <;>
        simp [List.filterMap_cons, h, ih, List.countP_cons]

theorem alterations_length (columns : List (String × String × String)) :
    (alterations columns).length
      = columns.countP (fun x => typeMap x.2.2 ≠ typeMap x.2.1) := by
  unfold alterations
  dsimp only
  refine Eq.trans ?_
    ((List.perm_insertionSort (fun a b => a.1 ≤ b.1) columns).countP_eq _)
  exact length_filterMap_guard (fun x => typeMap x.2.2 ≠ typeMap x.2.1)
    (fun x => (x.1, typeMap x.2.2)) (sortByName columns)

theorem alterations_eq_nil_iff (columns : List (String × String × String)) :
    alterations columns = [] ↔ ∀ x ∈ columns, typeMap x.2.2 = typeMap x.2.1 := by
  unfold alterations
  rw [List.filterMap_eq_nil_iff]
  constructor
  · intro h x hx
    have hx2 := (List.perm_insertionSort (fun a b => a.1 ≤ b.1) columns).mem_iff.mpr hx
    have := h x hx2
    by_contra hne
    simp [hne] at this
  · intro h x hx
    have hx2 := (List.perm_insertionSort (fun a b => a.1 ≤ b.1) columns).mem_iff.mp hx
    simp [h x hx2]

/-- C5: For every table name and column-change mapping,
`alter_column_types` yields no statement exactly when no column's
mapped target type differs from its mapped source type (in
particular for an identical pair `(T, T)`), emits at most one ALTER
TABLE statement, that single statement combines one MODIFY clause
per differing column, and the MODIFY-clause count equals the number
of differing columns. -/
theorem alter_column_types_correct (table : String)
    (columns : List (String × String × String)) :
    ((alter_column_types table columns = [])
        ↔ ∀ x ∈ columns, typeMap x.2.2 = typeMap x.2.1) ∧
    (alter_column_types table columns).length ≤ 1 ∧
    (alterations columns).length
        = columns.countP (fun x => typeMap x.2.2 ≠ typeMap x.2.1) ∧
    (∀ c T, alter_column_types table [(c, T, T)] = []) ∧
    (∀ stmt ∈ alter_column_types table columns,
        stmt = "ALTER TABLE " ++ table ++ " "
          ++ String.intercalate ", "
              ((alterations columns).map
                (fun a => "MODIFY " ++ a.1 ++ " " ++ a.2))) := by
  refine ⟨?_, ?_, alterations_length columns, ?_, ?_⟩
  · unfold alter_column_types
    rw [← alterations_eq_nil_iff]
    by_cases h : (alterations columns).isEmpty
    · simp [h, List.isEmpty_iff.mp h]
    · simp only [h, if_false]
      constructor
      · intro hc
        exact absurd hc (by simp)
      · intro hc
        exact absurd (List.isEmpty_iff.mpr hc) h
  · unfold alter_column_types
    by_cases h : (alterations columns).isEmpty <;> simp [h]
  · intro c T
    unfold alter_column_types
    have : alterations [(c, T, T)] = [] :=
      (alterations_eq_nil_iff [(c, T, T)]).mpr (by simp)
    simp [this]
  · intro stmt hstmt
    unfold alter_column_types at hstmt
    by_cases h : (alterations columns).isEmpty
    · simp [h] at hstmt
    · simp [h] at hstmt
      exact hstmt

/-- Witness for C5 on a concrete change mapping: `time` columns go
from `int` to `int64` (mapped `bigint`), while a `text` to
`mediumtext` relabelling is a no-op under the map. -/
theorem alter_column_types_correct_witness :
    ((alter_column_types "ticket"
        [("time", "int", "int64"), ("descr", "text", "mediumtext")] = [])
        ↔ ∀ x ∈ [("time", "int", "int64"), ("descr", "text", "mediumtext")],
            typeMap x.2.2 = typeMap x.2.1) ∧
    (alter_column_types "ticket"
        [("time", "int", "int64"), ("descr", "text", "mediumtext")]).length ≤ 1 ∧
    (alterations [("time", "int", "int64"), ("descr", "text", "mediumtext")]).length
        = ([("time", "int", "int64"), ("descr", "text", "mediumtext")]).countP
            (fun x => typeMap x.2.2 ≠ typeMap x.2.1) ∧
    (∀ c T, alter_column_types "ticket" [(c, T, T)] = []) ∧
    (∀ stmt ∈ alter_column_types "ticket"
        [("time", "int", "int64"), ("descr", "text", "mediumtext")],
        stmt = "ALTER TABLE " ++ "ticket" ++ " "
          ++ String.intercalate ", "
              ((alterations [("time", "int", "int64"), ("descr", "text", "mediumtext")]).map
                (fun a => "MODIFY " ++ a.1 ++ " " ++ a.2))) :=
  alter_column_types_correct "ticket"
    [("time", "int", "int64"), ("descr", "text", "mediumtext")]

theorem close_sets_closed (d : DriverOutcome) (s s2 : MySQLConnection)
    (h : MySQLConnection.close d s = .ok s2) : s2.is_closed = true := by
  unfold MySQLConnection.close at h
  by_cases hc : s.is_closed <;> cases d <;> simp [hc] at h <;> simp [← h, hc]

/-- C6: `close()` is idempotent — a close on an already-closed
connection is a no-op for every driver behaviour, so the second and
every subsequent close never raises; a first close whose driver
call reports the session already gone (`ProgrammingError`) is
swallowed silently; and `rollback()` on a connection whose server
session reports the transaction invalid marks the connection closed
instead of raising. -/
theorem close_idempotent_rollback_invalid :
    (∀ (s : MySQLConnection) (d : DriverOutcome),
        s.is_closed = true → MySQLConnection.close d s = .ok s) ∧
    (∀ (d d2 : DriverOutcome) (s s2 : MySQLConnection),
        MySQLConnection.close d s = .ok s2 →
          MySQLConnection.close d2 s2 = .ok s2) ∧
    (∀ s : MySQLConnection, s.is_closed = false →
        MySQLConnection.close .progError s = .ok { is_closed := true }) ∧
    (∀ s : MySQLConnection,
        MySQLConnection.rollback .ok .progError s = .ok { is_closed := true }) := by
  have hclosed : ∀ (s : MySQLConnection) (d : DriverOutcome),
      s.is_closed = true → MySQLConnection.close d s = .ok s := by
    intro s d h
    unfold MySQLConnection.close
    rw [if_pos h]
  refine ⟨hclosed, ?_, ?_, ?_⟩
  · intro d d2 s s2 h
    exact hclosed s2 d2 (close_sets_closed d s s2 h)
  · intro s h
    unfold MySQLConnection.close
    simp [h]
  · intro s
    rfl

/-- Witness for C6 at concrete connection states. -/
theorem close_idempotent_rollback_invalid_witness :
    MySQLConnection.close .ok { is_closed := true } = .ok { is_closed := true } ∧
    MySQLConnection.close .otherError { is_closed := true }
      = .ok { is_closed := true } ∧
    MySQLConnection.rollback .ok .progError { is_closed := false }
      = .ok { is_closed := true } :=
  ⟨close_idempotent_rollback_invalid.1 { is_closed := true } .ok rfl,
   close_idempotent_rollback_invalid.1 { is_closed := true } .otherError rfl,
   close_idempotent_rollback_invalid.2.2.2 { is_closed := false }⟩

theorem foldl_reset_append (tables : List (String × Bool))
    (a b : List String) :
    tables.foldl (fun acc t => (acc.1 ++ [resetStmt t], acc.2 ++ [t.1])) (a, b)
      = (a ++ tables.map resetStmt, b ++ tables.map Prod.fst) := by
  induction tables generalizing a b with
  | nil => simp
  | cons t ts ih => simp [List.foldl_cons, ih]

/-- C7: For every non-empty bound schema, `reset_tables()` returns
the name of every table of the schema, in order, and executes per
table exactly one statement: TRUNCATE TABLE (resetting the
auto-increment counter) for tables having an auto-increment column
and plain DELETE FROM for the rest, as `resetStmt` spells out. -/
theorem reset_tables_correct (schema : String) (tables : List (String × Bool))
    (h : schema ≠ "") :
    (reset_tables schema tables).2 = tables.map Prod.fst ∧
    (reset_tables schema tables).1 = tables.map resetStmt ∧
    (reset_tables schema tables).1.length = tables.length := by
  unfold reset_tables
  rw [if_neg h, foldl_reset_append]
  simp

/-- Witness for C7: one auto-increment table and one plain table. -/
theorem reset_tables_correct_witness :
    ("tracdb" : String) ≠ "" ∧
    ((reset_tables "tracdb" [("ticket", true), ("wiki", false)]).2
        = [("ticket", true), ("wiki", false)].map Prod.fst ∧
     (reset_tables "tracdb" [("ticket", true), ("wiki", false)]).1
        = [("ticket", true), ("wiki", false)].map resetStmt ∧
     (reset_tables "tracdb" [("ticket", true), ("wiki", false)]).1.length
        = ([("ticket", true), ("wiki", false)] : List (String × Bool)).length) :=
  ⟨by decide,
   reset_tables_correct "tracdb" [("ticket", true), ("wiki", false)] (by decide)⟩

theorem replaceChar_ticks (l : List Char) :
    (replaceChar '`' "``" l).data = doubleTicks l := by
  induction l with
  | nil => rfl
  | cons c rest ih =>
      unfold replaceChar doubleTicks
      by_cases h : c = '`' <;> simp [h, String.data_append, ih]

/-- C8: `quote` wraps the identifier in backticks doubling every
embedded backtick — character by character, the result is a
backtick, then the input with each backtick doubled, then a closing
backtick — so `quote("a`b")` is `` `a``b` ``; and `quote` is not
idempotent: quoting `a` twice differs from quoting it once. -/
theorem quote_correct :
    (∀ s : String, (quoteIdent s).data = '`' :: (doubleTicks s.data ++ ['`'])) ∧
    quoteIdent "a`b" = "`a``b`" ∧
    quoteIdent (quoteIdent "a") ≠ quoteIdent "a" := by
  refine ⟨?_, by decide, by decide⟩
  intro s
  unfold quoteIdent
  simp [String.data_append, replaceChar_ticks]

theorem backupParamStep_no_rdf (args : List String) (nv : String × String)
    (h : nv.1 ≠ "read_default_file") :
    ∃ s, backupParamStep args nv = args ++ s := by
  unfold backupParamStep
  by_cases h1 : nv.1 = "compress" ∧ as_int nv.2 0 ≠ 0
  · rw [if_pos h1]
    exact ⟨_, rfl⟩
  · rw [if_neg h1]
    by_cases h2 : nv.1 = "named_pipe" ∧ as_int nv.2 0 ≠ 0
    · rw [if_pos h2]
      exact ⟨_, rfl⟩
    · rw [if_neg h2, if_neg h]
      by_cases h4 : nv.1 = "unix_socket"
      · rw [if_pos h4]
        exact ⟨_, rfl⟩
      · rw [if_neg h4]
        exact ⟨[], by simp⟩

theorem foldl_no_rdf (params : List (String × String)) (args : List String)
    (h : ∀ nv ∈ params, nv.1 ≠ "read_default_file") :
    ∃ s, params.foldl backupParamStep args = args ++ s := by
  induction params generalizing args with
  | nil => exact ⟨[], by simp⟩
  | cons nv rest ih =>
      obtain ⟨s1, hs1⟩ := backupParamStep_no_rdf args nv (h nv (by simp))
      obtain ⟨s2, hs2⟩ := ih (args ++ s1) (fun x hx => h x (by simp [hx]))
      exact ⟨s1 ++ s2, by simp [List.foldl_cons, hs1, hs2, List.append_assoc]⟩

theorem foldl_rdf (params : List (String × String)) (v a : String)
    (hnodup : (params.map Prod.fst).Nodup)
    (hmem : ("read_default_file", v) ∈ params) :
    ∀ t : List String, ∃ t2, params.foldl backupParamStep (a :: t)
        = a :: ("--defaults-file=" ++ v) :: t2 := by
  induction params with
  | nil => cases hmem
  | cons nv rest ih =>
      intro t
      simp only [List.map_cons, List.nodup_cons] at hnodup
      by_cases h : nv.1 = "read_default_file"
      · have hv : nv.2 = v := by
          rcases List.mem_cons.mp hmem with heq | hrest
          · rw [← heq]
          · exact absurd (by rw [h]; exact List.mem_map_of_mem Prod.fst hrest)
              hnodup.1
        have hstep : backupParamStep (a :: t) nv
            = a :: ("--defaults-file=" ++ nv.2) :: t := by
          unfold backupParamStep
          have h1 : ¬(nv.1 = "compress" ∧ as_int nv.2 0 ≠ 0) := by
            rintro ⟨h1, _⟩
            rw [h] at h1
            exact absurd h1 (by decide)
          have h2 : ¬(nv.1 = "named_pipe" ∧ as_int nv.2 0 ≠ 0) := by
            rintro ⟨h2, _⟩
            rw [h] at h2
            exact absurd h2 (by decide)
          rw [if_neg h1, if_neg h2, if_pos h]
          rfl
        have hnone : ∀ x ∈ rest, x.1 ≠ "read_default_file" := by
          intro x hx hrdx
          exact hnodup.1 (by
            rw [h, ← hrdx]
            exact List.mem_map_of_mem Prod.fst hx)
        obtain ⟨s, hs⟩ :=
          foldl_no_rdf rest (a :: ("--defaults-file=" ++ nv.2) :: t) hnone
        refine ⟨t ++ s, ?_⟩
        rw [List.foldl_cons, hstep, hs, hv]
        simp
      · have hmem2 : ("read_default_file", v) ∈ rest := by
          rcases List.mem_cons.mp hmem with heq | hrest
          · exact absurd (by rw [← heq]) h
          · exact hrest
        obtain ⟨s1, hs1⟩ := backupParamStep_no_rdf (a :: t) nv h
        obtain ⟨t2, ht2⟩ := ih hnodup.2 hmem2 (t ++ s1)
        refine ⟨t2, ?_⟩
        rw [List.foldl_cons, hs1]
        simpa using ht2

/-- C9: `backup` never places the password in the external tool's
argument list (the argument list is independent of the configured
password, which is supplied only through the `MYSQL_PWD` process
environment variable); the "read defaults from file" flag is
positioned first in the argument list, at index 1 right after the
tool path; and the run errors exactly when the tool cannot be
launched, exits non-zero, or leaves no file at the destination —
otherwise it returns the destination path. -/
theorem backup_correct (mysqldump_path : String) (db : DbProp) (v : String)
    (dest_file db_name : String)
    (hnodup : (db.params.map Prod.fst).Nodup)
    (hmem : ("read_default_file", v) ∈ db.params) :
    (∀ pw1 pw2 : Option String,
        backupArgs mysqldump_path { db with password := pw1 } dest_file db_name
          = backupArgs mysqldump_path { db with password := pw2 } dest_file db_name) ∧
    (∀ (base_env : List (String × String)) (pw : String),
        backupEnv base_env { db with password := some pw }
          = base_env ++ [("MYSQL_PWD", pw)]) ∧
    (backupArgs mysqldump_path db dest_file db_name)[1]?
        = some ("--defaults-file=" ++ v) ∧
    (∀ (launch : Option Int) (de : Bool),
        (∃ r, backupRun launch de dest_file = .ok r)
          ↔ launch = some 0 ∧ de = true) ∧
    backupRun (some 0) true dest_file = .ok dest_file := by
  refine ⟨fun pw1 pw2 => rfl, fun base_env pw => rfl, ?_, ?_, rfl⟩
  · obtain ⟨t2, ht2⟩ := foldl_rdf db.params v mysqldump_path hnodup hmem
      ("--no-defaults" :: (optArgs "-h" db.host
        ++ optArgs "-P" (db.port.map toString) ++ optArgs "-u" db.user))
    unfold backupArgs backupBaseArgs
    rw [show ([mysqldump_path, "--no-defaults"] ++ optArgs "-h" db.host
        ++ optArgs "-P" (db.port.map toString) ++ optArgs "-u" db.user)
      = mysqldump_path :: ("--no-defaults" :: (optArgs "-h" db.host
        ++ optArgs "-P" (db.port.map toString) ++ optArgs "-u" db.user)) from by simp,
      ht2]
    simp
  · intro launch de
    cases launch with
    | none => simp [backupRun]
    | some rc =>
        by_cases hrc : rc = 0
        · subst hrc
          cases de <;> simp [backupRun]
        · simp [backupRun, hrc]

/-- Witness for C9 on a concrete connection configuration. -/
theorem backup_correct_witness :
    ((dbPropSample.params.map Prod.fst).Nodup) ∧
    (("read_default_file", "/etc/my.cnf") ∈ dbPropSample.params) ∧
    ((∀ pw1 pw2 : Option String,
        backupArgs "mysqldump" { dbPropSample with password := pw1 }
            "/tmp/out.sql" "tracdb"
          = backupArgs "mysqldump" { dbPropSample with password := pw2 }
              "/tmp/out.sql" "tracdb") ∧
     (∀ (base_env : List (String × String)) (pw : String),
        backupEnv base_env { dbPropSample with password := some pw }
          = base_env ++ [("MYSQL_PWD", pw)]) ∧
     (backupArgs "mysqldump" dbPropSample "/tmp/out.sql" "tracdb")[1]?
        = some ("--defaults-file=" ++ "/etc/my.cnf") ∧
     (∀ (launch : Option Int) (de : Bool),
        (∃ r, backupRun launch de "/tmp/out.sql" = .ok r)
          ↔ launch = some 0 ∧ de = true) ∧
     backupRun (some 0) true "/tmp/out.sql" = .ok "/tmp/out.sql") :=
  ⟨by decide, by decide,
   backup_correct "mysqldump" dbPropSample "/etc/my.cnf" "/tmp/out.sql" "tracdb"
     (by decide) (by decide)⟩

/-- C10: When the named column is not among the table's introspected
columns, `drop_column` executes no SQL statement at all — so any
database state is left exactly as it was; when a column does exist,
the statements end with the DROP COLUMN itself, preceded only by the
drops of composite indices involving it. -/
theorem drop_column_frame (current_cols : List String)
    (index_rows : List (String × String)) (table column : String)
    (h : column ∉ current_cols) :
    drop_column current_cols index_rows table column = [] ∧
    (∀ (σ : Type) (exec : σ → String → σ) (st : σ),
        applyStmts exec st (drop_column current_cols index_rows table column) = st) ∧
    (∀ col2 ∈ current_cols,
        ∃ pre, drop_column current_cols index_rows table col2
          = pre ++ ["ALTER TABLE " ++ quoteIdent table ++ " DROP COLUMN "
                      ++ quoteIdent col2 ++ " "]) := by
  have he : drop_column current_cols index_rows table column = [] := by
    unfold drop_column
    rw [if_neg h]
  refine ⟨he, fun σ exec st => by rw [he]; rfl, ?_⟩
  intro col2 hcol2
  unfold drop_column
  rw [if_pos hcol2]
  exact ⟨_, rfl⟩

/-- Witness for C10: dropping a non-existent column of a two-column
table does nothing; dropping an existing one ends with DROP COLUMN. -/
theorem drop_column_frame_witness :
    (("ghost" : String) ∉ ["id", "summary"]) ∧
    (drop_column ["id", "summary"] [("PRIMARY", "id")] "ticket" "ghost" = [] ∧
     (∀ (σ : Type) (exec : σ → String → σ) (st : σ),
        applyStmts exec st
          (drop_column ["id", "summary"] [("PRIMARY", "id")] "ticket" "ghost") = st) ∧
     (∀ col2 ∈ ["id", "summary"],
        ∃ pre, drop_column ["id", "summary"] [("PRIMARY", "id")] "ticket" col2
          = pre ++ ["ALTER TABLE " ++ quoteIdent "ticket" ++ " DROP COLUMN "
                      ++ quoteIdent col2 ++ " "])) :=
  ⟨by decide,
   drop_column_frame ["id", "summary"] [("PRIMARY", "id")] "ticket" "ghost"
     (by decide)⟩

end Trac
